import Mathlib

/-!
# pgo2 `client/rabbitmq/client.go` : the client over the channel pool

A shallow embedding of `Client` (header decoding, exchange declaration, publish
with its restart-to-label retry, consumer set-up) together with the properties
of its acquire / use / release discipline.

The pool (`getFreeChannel`, `ChannelBox.Close`) and the AMQP channel live outside
`client.go`; every call that leaves the client is answered by an `Env`, which
fixes the outcome of the n-th call of each kind, and is recorded in a trace.
-/

namespace Rabbitmq

/-! ## Go values -/

/-- A Go `error`, identified by the text its `Error()` method returns. -/
structure GoError where
  msg : String
deriving DecidableEq, Repr

/-- Go `errors.New`. -/
def errorsNew (text : String) : GoError := ⟨text⟩

/-- The outcome of a call that yields a value or an error. -/
inductive Outcome (α : Type) where
  | ok (v : α)
  | fail (e : GoError)
deriving DecidableEq, Repr

/-- A Go `interface{}` value as far as the client looks at it: `nil`, a string,
or a value of some other dynamic type. -/
inductive GoValue where
  | nil
  | str (s : String)
  | int (n : Int)
  | bool (b : Bool)
deriving DecidableEq, Repr

/-- The type assertion `v, ok := iV.(string)`. -/
def assertString : GoValue → String × Bool
  | .str s => (s, true)
  | _ => ("", false)

/-- An `amqp.Table` (`map[string]interface{}`) listed in the order a `range`
loop visits it; a Go map holds each key once. -/
abbrev Table := List (String × GoValue)

/-- Does `sub` start the character list `s`? -/
def matchesAt : List Char → List Char → Bool
  | _, [] => true
  | [], _ :: _ => false
  | c :: cs, p :: ps => c == p && matchesAt cs ps

/-- Scan for `sub` in `s`, `i` positions already skipped; `-1` when absent. -/
def indexFrom (sub : List Char) : List Char → Nat → Int
  | [], i => if matchesAt [] sub then (i : Int) else -1
  | c :: cs, i => if matchesAt (c :: cs) sub then (i : Int) else indexFrom sub cs (i + 1)

/-- Go `strings.Index(s, sub)`: the position of the first occurrence, or `-1`. -/
def stringsIndex (s sub : String) : Int := indexFrom sub.data s.data 0

/-- Decimal digits of a number, as `%d` prints them. -/
def sprintfD (n : Nat) : String := toString n

/-! ## Data carried by the client -/

/-- The exchange description; `Typ` is the Go field `Type`. -/
structure ExchangeData where
  Name : String
  Typ : String
  Durable : Bool
  AutoDelete : Bool
  Internal : Bool
  NoWait : Bool
  Args : Table
deriving DecidableEq, Repr

structure PublishData where
  ServiceName : String
  ExChange : Option ExchangeData
  OpCode : String
  OpUid : String
  ContentType : String
  Data : GoValue
deriving DecidableEq, Repr

structure ConsumeData where
  QueueName : String
  Name : String
  OpCodes : List String
  ExChange : Option ExchangeData
  Limit : Int
  AutoAck : Bool
  NoWait : Bool
  Exclusive : Bool
deriving DecidableEq, Repr

@[ext]
structure RabbitHeaders where
  LogId : String
  Exchange : String
  RouteKey : String
  Service : String
  OpUid : String
  Timestamp : Nat
  MessageId : String
deriving DecidableEq, Repr

/-- The fields of `amqp.Delivery` the client reads. -/
structure Delivery where
  Headers : Table
  Timestamp : Nat
  MessageId : String
  Exchange : String
  RoutingKey : String
  Body : List Nat
deriving DecidableEq, Repr

/-- The fields of `amqp.Publishing` the client fills in. -/
structure Publishing where
  ContentType : String
  Body : List Nat
  Headers : Table
  Timestamp : Nat
deriving DecidableEq, Repr

/-- A pooled channel: which channel it is, and its `closed` flag. -/
structure ChannelBox where
  id : Nat
  closed : Bool
deriving DecidableEq, Repr

/-- The receive end `<-chan amqp.Delivery` handed out by the protocol `Consume`. -/
structure DeliveryChan where
  id : Nat
deriving DecidableEq, Repr

/-- The `Pool` accessors used by the client whose bodies are outside `client.go`. -/
structure Client where
  getExchangeName : String → String
  getRouteKey : String → String
  ServiceName : String → String
  ExchangeType : String → String

/-! ## Calls leaving the client -/

/-- One call made by the client, with its arguments and its outcome. -/
inductive Event where
  | encode (data : GoValue) (r : Outcome (List Nat))
  | getFreeChannel (r : Outcome ChannelBox)
  | publish (ch : Nat) (exchange key : String) (mandatory immediate : Bool)
      (msg : Publishing) (r : Option GoError)
  | setClosed (ch : Nat)
  | close (ch : ChannelBox) (force : Bool)
  | exchangeDeclare (ch : Nat) (name kind : String)
      (durable autoDelete internal noWait : Bool) (args : Table) (r : Option GoError)
  | queueDeclare (ch : Nat) (name : String)
      (durable autoDelete exclusive noWait : Bool) (r : Option GoError)
  | queueBind (ch : Nat) (name key exchange : String) (noWait : Bool) (r : Option GoError)
  | qos (ch : Nat) (prefetchCount prefetchSize : Int) (global : Bool) (r : Option GoError)
  | consume (ch : Nat) (queue consumer : String)
      (autoAck exclusive noLocal noWait : Bool) (r : Outcome DeliveryChan)
deriving DecidableEq, Repr

/-- The behaviour of everything outside the client: the outcome of the n-th
call of each kind (counted from 0), the gob encoder, and the clock. -/
structure Env where
  gobEncode : GoValue → Outcome (List Nat)
  now : Nat → Nat
  getFreeChannel : Nat → Outcome ChannelBox
  publish : Nat → Option GoError
  exchangeDeclare : Nat → Option GoError
  queueDeclare : Nat → Option GoError
  queueBind : Nat → Option GoError
  qos : Nat → Option GoError
  consume : Nat → Outcome DeliveryChan

/-- How many calls of each kind were made so far, and the calls in order. -/
structure World where
  acquires : Nat
  publishes : Nat
  exDeclares : Nat
  qDeclares : Nat
  binds : Nat
  qosCalls : Nat
  consumes : Nat
  trace : List Event
deriving DecidableEq, Repr

/-- Nothing has happened yet. -/
def World.init : World := ⟨0, 0, 0, 0, 0, 0, 0, []⟩

/-- Go `gob.NewEncoder(&goBytes).Encode(data)`. -/
def gobEncode (env : Env) (data : GoValue) (w : World) : Outcome (List Nat) × World :=
  let r := env.gobEncode data
  (r, { w with trace := w.trace ++ [Event.encode data r] })

/-- Go `c.getFreeChannel()`. -/
def getFreeChannel (env : Env) (w : World) : Outcome ChannelBox × World :=
  let r := env.getFreeChannel w.acquires
  (r, { w with acquires := w.acquires + 1, trace := w.trace ++ [Event.getFreeChannel r] })

/-- Go `ch.Close(force)`: hand the channel, with the flag it carries now, back to the pool. -/
def ChannelBox.Close (ch : ChannelBox) (force : Bool) (w : World) : World :=
  { w with trace := w.trace ++ [Event.close ch force] }

/-- The assignment `ch.closed = true`. -/
def ChannelBox.markClosed (ch : ChannelBox) (w : World) : ChannelBox × World :=
  ({ ch with closed := true }, { w with trace := w.trace ++ [Event.setClosed ch.id] })

/-- Go `ch.channel.Publish(exchange, key, mandatory, immediate, msg)`. -/
def channelPublish (env : Env) (ch : ChannelBox) (exchange key : String)
    (mandatory immediate : Bool) (msg : Publishing) (w : World) : Option GoError × World :=
  let r := env.publish w.publishes
  (r, { w with publishes := w.publishes + 1,
               trace := w.trace ++ [Event.publish ch.id exchange key mandatory immediate msg r] })

/-- Go `ch.channel.ExchangeDeclare(...)`. -/
def channelExchangeDeclare (env : Env) (ch : ChannelBox) (name kind : String)
    (durable autoDelete internal noWait : Bool) (args : Table) (w : World) :
    Option GoError × World :=
  let r := env.exchangeDeclare w.exDeclares
  (r, { w with exDeclares := w.exDeclares + 1,
               trace := w.trace ++
                 [Event.exchangeDeclare ch.id name kind durable autoDelete internal noWait args r] })

/-- Go `ch.channel.QueueDeclare(...)`; the returned `amqp.Queue` is never read. -/
def channelQueueDeclare (env : Env) (ch : ChannelBox) (name : String)
    (durable autoDelete exclusive noWait : Bool) (w : World) : Option GoError × World :=
  let r := env.queueDeclare w.qDeclares
  (r, { w with qDeclares := w.qDeclares + 1,
               trace := w.trace ++
                 [Event.queueDeclare ch.id name durable autoDelete exclusive noWait r] })

/-- Go `ch.channel.QueueBind(name, key, exchange, noWait, nil)`. -/
def channelQueueBind (env : Env) (ch : ChannelBox) (name key exchange : String)
    (noWait : Bool) (w : World) : Option GoError × World :=
  let r := env.queueBind w.binds
  (r, { w with binds := w.binds + 1,
               trace := w.trace ++ [Event.queueBind ch.id name key exchange noWait r] })

/-- Go `ch.channel.Qos(prefetchCount, prefetchSize, global)`. -/
def channelQos (env : Env) (ch : ChannelBox) (prefetchCount prefetchSize : Int)
    (global : Bool) (w : World) : Option GoError × World :=
  let r := env.qos w.qosCalls
  (r, { w with qosCalls := w.qosCalls + 1,
               trace := w.trace ++ [Event.qos ch.id prefetchCount prefetchSize global r] })

/-- Go `ch.channel.Consume(queue, consumer, autoAck, exclusive, noLocal, noWait, nil)`. -/
def channelConsume (env : Env) (ch : ChannelBox) (queue consumer : String)
    (autoAck exclusive noLocal noWait : Bool) (w : World) : Outcome DeliveryChan × World :=
  let r := env.consume w.consumes
  (r, { w with consumes := w.consumes + 1,
               trace := w.trace ++
                 [Event.consume ch.id queue consumer autoAck exclusive noLocal noWait r] })

/-! ## `client.go` -/

/-- Go `Client.failOnError`. -/
def failOnError (err : GoError) (msg : String) : GoError :=
  errorsNew ("Rabbit:" ++ msg ++ ",err:" ++ err.msg)

/-- One step of the `range d.Headers` loop of `DecodeHeaders`. -/
def decodeHeader (ret : RabbitHeaders) (kv : String × GoValue) : RabbitHeaders :=
  let v := (assertString kv.2).1
  if kv.1 = "logId" then { ret with LogId := v }
  else if kv.1 = "service" then { ret with Service := v }
  else if kv.1 = "opUid" then { ret with OpUid := v }
  else ret

/-- Go `Client.DecodeHeaders`. -/
def DecodeHeaders (d : Delivery) : RabbitHeaders :=
  d.Headers.foldl decodeHeader
    { LogId := "", Exchange := d.Exchange, RouteKey := d.RoutingKey, Service := "",
      OpUid := "", Timestamp := d.Timestamp, MessageId := d.MessageId }

/-- Go `Client.parseExchange`. -/
def parseExchange (exchange : Option ExchangeData) : String × String :=
  match exchange with
  | some ex => (ex.Name, ex.Typ)
  | none => ("", "")

/-- Go `Client.exchangeDeclare`. -/
def exchangeDeclare (c : Client) (env : Env) (ch : ChannelBox)
    (exchange : Option ExchangeData) (w : World) : Option GoError × World :=
  let (exchangeName, exchangeType) := parseExchange exchange
  let (durable, autoDelete, internal, noWait, args) :=
    match exchange with
    | some ex => (ex.Durable, ex.AutoDelete, ex.Internal, ex.NoWait, ex.Args)
    | none => (true, false, false, false, ([] : Table))
  match channelExchangeDeclare env ch (c.getExchangeName exchangeName)
      (c.ExchangeType exchangeType) durable autoDelete internal noWait args w with
  | (some err, w1) => (some (failOnError err "Failed to declare an exchange"), w1)
  | (none, w1) => (none, w1)

/-- Go `Client.SetExchangeDeclare`; the deferred `ch.Close(false)` runs once the
result is computed. -/
def SetExchangeDeclare (c : Client) (env : Env) (exchange : Option ExchangeData)
    (w : World) : Option GoError × World :=
  match getFreeChannel env w with
  | (.fail err, w1) => (some err, w1)
  | (.ok ch, w1) =>
    let (r, w2) := exchangeDeclare c env ch exchange w1
    (r, ch.Close false w2)

/-- The text of an error matches one of the two signatures `Publish` retries on. -/
def isNotOpen (err : GoError) : Bool :=
  stringsIndex err.msg "channel/connection is not open" != -1 ||
    stringsIndex err.msg "CHANNEL_ERROR - expected 'channel.open'" != -1

/-- The closure run at the label `StartPublish`: `(retry, ret, err)`. -/
def publishAttempt (c : Client) (env : Env) (parameter : PublishData)
    (logId exchangeName contentType : String) (goBytes : List Nat) (w : World) :
    (Bool × Bool × Option GoError) × World :=
  match getFreeChannel env w with
  | (.fail err, w1) => ((false, false, some err), w1)
  | (.ok ch, w1) =>
    let num : Nat := 1
    match channelPublish env ch (c.getExchangeName exchangeName)
        (c.getRouteKey parameter.OpCode) false false
        { ContentType := contentType, Body := goBytes,
          Headers := [("logId", GoValue.str logId),
                      ("service", GoValue.str (c.ServiceName parameter.ServiceName)),
                      ("opUid", GoValue.str parameter.OpUid)],
          Timestamp := env.now w1.publishes } w1 with
    | (none, w2) => ((false, true, none), ch.Close false w2)
    | (some err, w2) =>
      if isNotOpen err then
        let (ch1, w3) := ch.markClosed w2
        if num == 1 then
          ((true, false, some err), ch1.Close false w3)
        else
          ((false, false, some (failOnError err
              ("Failed to publish a message sendNum(" ++ sprintfD num ++ ")"))),
            ch1.Close false w3)
      else
        ((false, false, some (failOnError err
            ("Failed to publish a message sendNum(" ++ sprintfD num ++ ")"))),
          ch.Close false w2)

/-- The jump `goto StartPublish`: the closure is run again while it asks for a
retry. `fuel` bounds the number of runs; `none` means the bound was reached. -/
def publishLoop (c : Client) (env : Env) (parameter : PublishData)
    (logId exchangeName contentType : String) (goBytes : List Nat) :
    Nat → World → Option ((Bool × Option GoError) × World)
  | 0, _ => none
  | fuel + 1, w =>
    match publishAttempt c env parameter logId exchangeName contentType goBytes w with
    | ((true, _, _), w1) =>
      publishLoop c env parameter logId exchangeName contentType goBytes fuel w1
    | ((false, ret, err), w1) => some ((ret, err), w1)

/-- Go `Client.Publish`. -/
def Publish (c : Client) (env : Env) (parameter : PublishData) (logId : String)
    (fuel : Nat) (w : World) : Option ((Bool × Option GoError) × World) :=
  if parameter.OpCode = "" ∨ parameter.Data = GoValue.nil then
    some ((false, some (errorsNew "Rabbit OpCode and LogId cannot be empty")), w)
  else
    match gobEncode env parameter.Data w with
    | (.fail err, w1) => some ((false, some (failOnError err "Encode err")), w1)
    | (.ok goBytes, w1) =>
      let exchangeName := (parseExchange parameter.ExChange).1
      let contentType :=
        if parameter.ContentType ≠ "" then parameter.ContentType else "text/plain"
      publishLoop c env parameter logId exchangeName contentType goBytes fuel w1

/-- Go `Client.bindQueue`: one `QueueBind` per operation code, stopping at the first failure. -/
def bindQueue (c : Client) (env : Env) (ch : ChannelBox) (queueName : String)
    (exchange : Option ExchangeData) : List String → World → Option GoError × World
  | [], w => (none, w)
  | opCode :: rest, w =>
    match channelQueueBind env ch queueName (c.getRouteKey opCode)
        (c.getExchangeName (parseExchange exchange).1) false w with
    | (some err, w1) => (some (failOnError err "Failed to bind a queue"), w1)
    | (none, w1) => bindQueue c env ch queueName exchange rest w1

/-- Go `Client.queueDeclare`. -/
def queueDeclare (env : Env) (ch : ChannelBox) (queueName : String) (w : World) :
    Option GoError × World :=
  match channelQueueDeclare env ch queueName true false false false w with
  | (some err, w1) => (some (failOnError err "Failed to declare a queue"), w1)
  | (none, w1) => (none, w1)

/-- Go `Client.GetConsumeChannelBox`. -/
def GetConsumeChannelBox (c : Client) (env : Env) (queueName : String)
    (opCodes : List String) (exchange : Option ExchangeData) (w : World) :
    (Option ChannelBox × Option GoError) × World :=
  match getFreeChannel env w with
  | (.fail err, w1) => ((none, some err), w1)
  | (.ok ch, w1) =>
    match exchangeDeclare c env ch exchange w1 with
    | (some err, w2) => ((none, some err), w2)
    | (none, w2) =>
      match queueDeclare env ch queueName w2 with
      | (some err, w3) => ((none, some err), w3)
      | (none, w3) =>
        match bindQueue c env ch queueName exchange opCodes w3 with
        | (some err, w4) => ((none, some err), w4)
        | (none, w4) => ((some ch, none), w4)

/-- Go `Client.Consume`. `GetConsumeChannelBox` returns a nil box only together with
an error, so the second branch below is never taken. -/
def Consume (c : Client) (env : Env) (parameter : ConsumeData) (w : World) :
    (Option DeliveryChan × Option GoError) × World :=
  match GetConsumeChannelBox c env parameter.QueueName parameter.OpCodes parameter.ExChange w with
  | ((_, some err), w1) => ((none, some err), w1)
  | ((none, none), w1) => ((none, none), w1)
  | ((some ch, none), w1) =>
    match channelQos env ch parameter.Limit 0 false w1 with
    | (some err, w2) => ((none, some (failOnError err "set Qos err")), w2)
    | (none, w2) =>
      match channelConsume env ch parameter.QueueName parameter.Name parameter.AutoAck
          parameter.Exclusive false parameter.NoWait w2 with
      | (.fail err, w3) => ((none, some (failOnError err "get msg err")), w3)
      | (.ok messages, w3) => ((some messages, none), w3)

/-! ## Vocabulary of the statements -/

/-- The input passes the check at the top of `Publish`. -/
def PublishData.valid (parameter : PublishData) : Prop :=
  parameter.OpCode ≠ "" ∧ parameter.Data ≠ GoValue.nil

instance (parameter : PublishData) : Decidable parameter.valid :=
  inferInstanceAs (Decidable (parameter.OpCode ≠ "" ∧ parameter.Data ≠ GoValue.nil))

/-- The content type `Publish` settles on. -/
def contentTypeOf (parameter : PublishData) : String :=
  if parameter.ContentType ≠ "" then parameter.ContentType else "text/plain"

/-- The message handed to the protocol publish call number `n` of the run. -/
def sentMessage (c : Client) (env : Env) (parameter : PublishData) (logId : String)
    (goBytes : List Nat) (n : Nat) : Publishing :=
  { ContentType := contentTypeOf parameter, Body := goBytes,
    Headers := [("logId", GoValue.str logId),
                ("service", GoValue.str (c.ServiceName parameter.ServiceName)),
                ("opUid", GoValue.str parameter.OpUid)],
    Timestamp := env.now n }

/-- The protocol publish call of an attempt on channel `ch`, as it shows in the trace. -/
def publishEvent (c : Client) (env : Env) (parameter : PublishData) (logId : String)
    (goBytes : List Nat) (ch : ChannelBox) (n : Nat) (r : Option GoError) : Event :=
  Event.publish ch.id (c.getExchangeName (parseExchange parameter.ExChange).1)
    (c.getRouteKey parameter.OpCode) false false (sentMessage c env parameter logId goBytes n) r

/-- Is the event a release of a channel? -/
def Event.isClose : Event → Bool
  | .close _ _ => true
  | _ => false

/-! ## Release bookkeeping over a trace -/

/-- One event of the lease bookkeeping. The state is `none` while no channel is
held and `some (id, used)` while channel `id` is held, `used` telling whether
its protocol call was made. An acquisition needs the client to hold nothing; a
protocol call and a flagging go to the held channel; `Close(false)` comes after
the protocol call and ends the lease; anything else breaks the discipline. -/
def leaseStep : Option (Nat × Bool) → Event → Option (Option (Nat × Bool))
  | none, .encode _ _ => some none
  | none, .getFreeChannel (.ok ch) => some (some (ch.id, false))
  | none, .getFreeChannel (.fail _) => some none
  | some (id, false), .publish ch _ _ _ _ _ _ =>
    if ch = id then some (some (id, true)) else none
  | some (id, false), .exchangeDeclare ch _ _ _ _ _ _ _ _ =>
    if ch = id then some (some (id, true)) else none
  | some (id, true), .setClosed ch => if ch = id then some (some (id, true)) else none
  | some (id, true), .close ch force =>
    if ch.id = id ∧ force = false then some none else none
  | _, _ => none

/-- The bookkeeping state after a trace; the outer `none` reports a breach. -/
def leaseRun (t : List Event) : Option (Option (Nat × Bool)) :=
  t.foldl (fun st ev => st.bind (fun held => leaseStep held ev)) (some none)

/-- A lease as the flag bookkeeping sees it: the channel as acquired, the
outcome of its protocol publish once made, and whether `closed` was assigned. -/
structure Lease where
  ch : ChannelBox
  result : Option (Option GoError)
  flagged : Bool
deriving DecidableEq, Repr

/-- Did the publish of the lease fail with a not-open error? -/
def Lease.notOpen (l : Lease) : Bool :=
  match l.result with
  | some (some e) => isNotOpen e
  | _ => false

/-- One event of the flag bookkeeping. `closed` may be assigned only after the
publish on the held channel failed with a not-open error; at release the flag
must have been assigned exactly in that case, and the channel handed back is
the acquired one with `closed` true in that case and untouched otherwise. -/
def flagStep : Option Lease → Event → Option (Option Lease)
  | none, .encode _ _ => some none
  | none, .getFreeChannel (.ok ch) => some (some ⟨ch, none, false⟩)
  | none, .getFreeChannel (.fail _) => some none
  | some l, .publish ch _ _ _ _ _ r =>
    if l.result = none ∧ ch = l.ch.id then some (some { l with result := some r }) else none
  | some l, .setClosed ch =>
    if l.notOpen = true ∧ l.flagged = false ∧ ch = l.ch.id then
      some (some { l with flagged := true })
    else none
  | some l, .close ch _ =>
    if l.result ≠ none ∧ l.flagged = l.notOpen ∧
        ch = (if l.notOpen then { l.ch with closed := true } else l.ch) then
      some none
    else none
  | _, _ => none

/-- The flag bookkeeping state after a trace; the outer `none` reports a breach. -/
def flagRun (t : List Event) : Option (Option Lease) :=
  t.foldl (fun st ev => st.bind (fun held => flagStep held ev)) (some none)

/-! ## Failed calls in a trace -/

/-- The failed call an event records, if it records one: the label under which
`client.go` reports it (`none` for an acquisition) and the cause. -/
def Event.failure : Event → Option (Option String × GoError)
  | .encode _ (.fail e) => some (some "Encode err", e)
  | .getFreeChannel (.fail e) => some (none, e)
  | .publish _ _ _ _ _ _ (some e) => some (some "Failed to publish a message sendNum(1)", e)
  | .exchangeDeclare _ _ _ _ _ _ _ _ (some e) => some (some "Failed to declare an exchange", e)
  | .queueDeclare _ _ _ _ _ _ (some e) => some (some "Failed to declare a queue", e)
  | .queueBind _ _ _ _ _ (some e) => some (some "Failed to bind a queue", e)
  | .qos _ _ _ _ (some e) => some (some "set Qos err", e)
  | .consume _ _ _ _ _ _ _ (.fail e) => some (some "get msg err", e)
  | _ => none

/-- The most recent failed call of a trace. -/
def lastFailure (t : List Event) : Option (Option String × GoError) :=
  t.foldl (fun acc ev => match ev.failure with | some f => some f | none => acc) none

/-- The error a caller is handed for a failed call: an acquisition error as it
is, any other cause wrapped with its label. -/
def reported : Option String × GoError → GoError
  | (none, cause) => cause
  | (some label, cause) => ⟨"Rabbit:" ++ label ++ ",err:" ++ cause.msg⟩

/-! ## Sample inputs -/

/-- A client whose pool accessors leave names unchanged. -/
def sampleClient : Client := ⟨id, id, id, id⟩

/-- A well-formed publish request. -/
def samplePublish : PublishData :=
  { ServiceName := "svc", ExChange := none, OpCode := "user.created", OpUid := "u7",
    ContentType := "", Data := GoValue.str "hello" }

/-- The error the AMQP library reports on a channel that is no longer open. -/
def notOpenError : GoError := ⟨"Exception (504) Reason: \"channel/connection is not open\""⟩

/-- The broker refusing a publish for a reason of its own. -/
def refusedError : GoError := ⟨"Exception (403) Reason: \"ACCESS_REFUSED\""⟩

/-- A pool that always has a channel and a broker on which the first `failures`
publish calls report a channel that is not open; everything else succeeds. -/
def notOpenEnv (failures : Nat) : Env :=
  { gobEncode := fun _ => Outcome.ok [104, 105],
    now := fun n => 1000 + n,
    getFreeChannel := fun n => Outcome.ok ⟨n, false⟩,
    publish := fun n => if n < failures then some notOpenError else none,
    exchangeDeclare := fun _ => none,
    queueDeclare := fun _ => none,
    queueBind := fun _ => none,
    qos := fun _ => none,
    consume := fun _ => Outcome.ok ⟨0⟩ }

/-- As `notOpenEnv 1`, except that the second publish is refused by the broker. -/
def refusedEnv : Env :=
  { notOpenEnv 1 with publish := fun n => if n < 1 then some notOpenError else some refusedError }

/-- A well-formed consume request binding two operation codes. -/
def sampleConsume : ConsumeData :=
  { QueueName := "q", Name := "worker", OpCodes := ["user.created", "user.deleted"],
    ExChange := none, Limit := 10, AutoAck := false, NoWait := false, Exclusive := false }

/-- As `notOpenEnv 0`, except that the broker refuses the exchange declaration. -/
def declareRefusedEnv : Env :=
  { notOpenEnv 0 with exchangeDeclare := fun _ => some refusedError }

/-- As `notOpenEnv 0`, except that the broker refuses the prefetch limit. -/
def qosRefusedEnv : Env :=
  { notOpenEnv 0 with qos := fun _ => some refusedError }

/-- A pool that has no channel to hand out. -/
def exhaustedEnv : Env :=
  { notOpenEnv 0 with getFreeChannel := fun _ => Outcome.fail ⟨"connection refused"⟩ }

/-- The world after `Publish` on `samplePublish` under `notOpenEnv 1`: a first
attempt failing with a not-open error, then a successful one. -/
def retriedWorld : World :=
  { World.init with
    acquires := 2, publishes := 2,
    trace := [Event.encode samplePublish.Data (Outcome.ok [104, 105]),
      Event.getFreeChannel (Outcome.ok ⟨0, false⟩),
      publishEvent sampleClient (notOpenEnv 1) samplePublish "log-1" [104, 105]
        ⟨0, false⟩ 0 (some notOpenError),
      Event.setClosed 0,
      Event.close ⟨0, true⟩ false,
      Event.getFreeChannel (Outcome.ok ⟨1, false⟩),
      publishEvent sampleClient (notOpenEnv 1) samplePublish "log-1" [104, 105]
        ⟨1, false⟩ 1 none,
      Event.close ⟨1, false⟩ false] }

/-- The world after `Publish` on `samplePublish` under `refusedEnv`: a first
attempt failing with a not-open error, then one the broker refuses. -/
def refusedWorld : World :=
  { World.init with
    acquires := 2, publishes := 2,
    trace := [Event.encode samplePublish.Data (Outcome.ok [104, 105]),
      Event.getFreeChannel (Outcome.ok ⟨0, false⟩),
      publishEvent sampleClient refusedEnv samplePublish "log-1" [104, 105]
        ⟨0, false⟩ 0 (some notOpenError),
      Event.setClosed 0,
      Event.close ⟨0, true⟩ false,
      Event.getFreeChannel (Outcome.ok ⟨1, false⟩),
      publishEvent sampleClient refusedEnv samplePublish "log-1" [104, 105]
        ⟨1, false⟩ 1 (some refusedError),
      Event.close ⟨1, false⟩ false] }

/-! ## The closure of `Publish`, case by case -/

theorem sendNum_one :
    "Failed to publish a message sendNum(" ++ sprintfD 1 ++ ")" =
      "Failed to publish a message sendNum(1)" := by decide

theorem publishAttempt_acquire_fail (c : Client) (env : Env) (parameter : PublishData)
    (logId exchangeName contentType : String) (goBytes : List Nat) (w : World) (e : GoError)
    (hacq : env.getFreeChannel w.acquires = Outcome.fail e) :
    publishAttempt c env parameter logId exchangeName contentType goBytes w =
      ((false, false, some e),
        { w with acquires := w.acquires + 1,
                 trace := w.trace ++ [Event.getFreeChannel (Outcome.fail e)] }) := by
  simp [publishAttempt, getFreeChannel, hacq]

theorem publishAttempt_ok (c : Client) (env : Env) (parameter : PublishData)
    (logId : String) (goBytes : List Nat) (w : World) (ch : ChannelBox)
    (hacq : env.getFreeChannel w.acquires = Outcome.ok ch)
    (hpub : env.publish w.publishes = none) :
    publishAttempt c env parameter logId (parseExchange parameter.ExChange).1
        (contentTypeOf parameter) goBytes w =
      ((false, true, none),
        { w with acquires := w.acquires + 1, publishes := w.publishes + 1,
                 trace := w.trace ++ [Event.getFreeChannel (Outcome.ok ch),
                   publishEvent c env parameter logId goBytes ch w.publishes none,
                   Event.close ch false] }) := by
  simp [publishAttempt, getFreeChannel, channelPublish, ChannelBox.Close, hacq, hpub,
    publishEvent, sentMessage]

theorem publishAttempt_retry (c : Client) (env : Env) (parameter : PublishData)
    (logId : String) (goBytes : List Nat) (w : World) (ch : ChannelBox) (e : GoError)
    (hacq : env.getFreeChannel w.acquires = Outcome.ok ch)
    (hpub : env.publish w.publishes = some e) (hopen : isNotOpen e = true) :
    publishAttempt c env parameter logId (parseExchange parameter.ExChange).1
        (contentTypeOf parameter) goBytes w =
      ((true, false, some e),
        { w with acquires := w.acquires + 1, publishes := w.publishes + 1,
                 trace := w.trace ++ [Event.getFreeChannel (Outcome.ok ch),
                   publishEvent c env parameter logId goBytes ch w.publishes (some e),
                   Event.setClosed ch.id,
                   Event.close { ch with closed := true } false] }) := by
  simp [publishAttempt, getFreeChannel, channelPublish, ChannelBox.Close,
    ChannelBox.markClosed, hacq, hpub, hopen, publishEvent, sentMessage]

theorem publishAttempt_other (c : Client) (env : Env) (parameter : PublishData)
    (logId : String) (goBytes : List Nat) (w : World) (ch : ChannelBox) (e : GoError)
    (hacq : env.getFreeChannel w.acquires = Outcome.ok ch)
    (hpub : env.publish w.publishes = some e) (hopen : isNotOpen e = false) :
    publishAttempt c env parameter logId (parseExchange parameter.ExChange).1
        (contentTypeOf parameter) goBytes w =
      ((false, false, some (failOnError e "Failed to publish a message sendNum(1)")),
        { w with acquires := w.acquires + 1, publishes := w.publishes + 1,
                 trace := w.trace ++ [Event.getFreeChannel (Outcome.ok ch),
                   publishEvent c env parameter logId goBytes ch w.publishes (some e),
                   Event.close ch false] }) := by
  simp [publishAttempt, getFreeChannel, channelPublish, ChannelBox.Close, hacq, hpub, hopen,
    publishEvent, sentMessage, sendNum_one]

/-- On valid input whose payload encodes, `Publish` is the retry loop started
after the encoding was recorded. -/
theorem Publish_eq_loop (c : Client) (env : Env) (parameter : PublishData) (logId : String)
    (goBytes : List Nat) (fuel : Nat) (w : World) (hv : parameter.valid)
    (henc : env.gobEncode parameter.Data = Outcome.ok goBytes) :
    Publish c env parameter logId fuel w =
      publishLoop c env parameter logId (parseExchange parameter.ExChange).1
        (contentTypeOf parameter) goBytes fuel
        { w with trace := w.trace ++ [Event.encode parameter.Data (Outcome.ok goBytes)] } := by
  obtain ⟨h1, h2⟩ := hv
  simp [Publish, gobEncode, henc, h1, h2, contentTypeOf]

/-! ## The retry loop -/

theorem publishLoop_succ (c : Client) (env : Env) (parameter : PublishData)
    (logId exchangeName contentType : String) (goBytes : List Nat) (fuel : Nat) (w : World) :
    publishLoop c env parameter logId exchangeName contentType goBytes (fuel + 1) w =
      match publishAttempt c env parameter logId exchangeName contentType goBytes w with
      | ((true, _, _), w1) =>
        publishLoop c env parameter logId exchangeName contentType goBytes fuel w1
      | ((false, ret, err), w1) => some ((ret, err), w1) := rfl

/-- While the attempts fail with a not-open error, each of them costs one unit
of fuel, one acquisition and one protocol call, and the loop goes on. -/
theorem publishLoop_skip (c : Client) (env : Env) (parameter : PublishData)
    (logId : String) (goBytes : List Nat) :
    ∀ (k fuel : Nat) (w : World),
      (∀ i, i < k → ∃ ch, env.getFreeChannel (w.acquires + i) = Outcome.ok ch) →
      (∀ i, i < k → ∃ e, env.publish (w.publishes + i) = some e ∧ isNotOpen e = true) →
      ∃ w1, publishLoop c env parameter logId (parseExchange parameter.ExChange).1
              (contentTypeOf parameter) goBytes (fuel + k) w =
            publishLoop c env parameter logId (parseExchange parameter.ExChange).1
              (contentTypeOf parameter) goBytes fuel w1 ∧
          w1.acquires = w.acquires + k ∧ w1.publishes = w.publishes + k := by
  intro k
  induction k with
  | zero => intro fuel w _ _; exact ⟨w, rfl, rfl, rfl⟩
  | succ k ih =>
    intro fuel w hacq hpub
    obtain ⟨ch, hch⟩ := hacq 0 (Nat.succ_pos k)
    obtain ⟨e, he, hopen⟩ := hpub 0 (Nat.succ_pos k)
    rw [Nat.add_zero] at hch he
    have hstep := publishAttempt_retry c env parameter logId goBytes w ch e hch he hopen
    have ha2 : (publishAttempt c env parameter logId (parseExchange parameter.ExChange).1
        (contentTypeOf parameter) goBytes w).2.acquires = w.acquires + 1 := by rw [hstep]
    have hp2 : (publishAttempt c env parameter logId (parseExchange parameter.ExChange).1
        (contentTypeOf parameter) goBytes w).2.publishes = w.publishes + 1 := by rw [hstep]
    obtain ⟨w1, hw1, ha, hp⟩ := ih fuel
      (publishAttempt c env parameter logId (parseExchange parameter.ExChange).1
        (contentTypeOf parameter) goBytes w).2
      (fun i hi => by
        obtain ⟨ch1, h1⟩ := hacq (i + 1) (Nat.succ_lt_succ hi)
        exact ⟨ch1, by rw [ha2, Nat.add_assoc, Nat.add_comm 1 i]; exact h1⟩)
      (fun i hi => by
        obtain ⟨e1, h1, h2⟩ := hpub (i + 1) (Nat.succ_lt_succ hi)
        exact ⟨e1, by rw [hp2, Nat.add_assoc, Nat.add_comm 1 i]; exact h1, h2⟩)
    refine ⟨w1, ?_, ?_, ?_⟩
    · rw [← hw1, ← Nat.add_assoc, publishLoop_succ]
      rw [hstep]
    · rw [ha, ha2, Nat.add_assoc, Nat.add_comm 1 k]
    · rw [hp, hp2, Nat.add_assoc, Nat.add_comm 1 k]

/-- When every acquisition succeeds and every protocol publish reports a
not-open error, no amount of fuel lets the loop return. -/
theorem publishLoop_never_returns (c : Client) (env : Env) (parameter : PublishData)
    (logId : String) (goBytes : List Nat)
    (hacq : ∀ n, ∃ ch, env.getFreeChannel n = Outcome.ok ch)
    (hpub : ∀ n, ∃ e, env.publish n = some e ∧ isNotOpen e = true) :
    ∀ (fuel : Nat) (w : World),
      publishLoop c env parameter logId (parseExchange parameter.ExChange).1
        (contentTypeOf parameter) goBytes fuel w = none := by
  intro fuel
  induction fuel with
  | zero => intro w; rfl
  | succ fuel ih =>
    intro w
    obtain ⟨ch, hch⟩ := hacq w.acquires
    obtain ⟨e, he, hopen⟩ := hpub w.publishes
    rw [publishLoop_succ, publishAttempt_retry c env parameter logId goBytes w ch e hch he hopen]
    exact ih _

/-! ## Publish: validation, success, retry, other errors -/

/-- C1 (the code departs from the claim): after two publish attempts that both
report a channel that is not open, `Publish` does not return a failure; with two
units of fuel it is still running, and it goes on to a third acquisition and a
third protocol publish, whose success it returns. -/
theorem Publish_third_attempt_after_two_not_open :
    (notOpenEnv 2).publish 0 = some notOpenError ∧
    (notOpenEnv 2).publish 1 = some notOpenError ∧
    isNotOpen notOpenError = true ∧
    samplePublish.OpCode ≠ "" ∧ samplePublish.Data ≠ GoValue.nil ∧
    Publish sampleClient (notOpenEnv 2) samplePublish "log-1" 2 World.init = none ∧
    (Publish sampleClient (notOpenEnv 2) samplePublish "log-1" 3 World.init).map
        (fun r => (r.1, r.2.acquires, r.2.publishes)) = some ((true, none), 3, 3) := by
  decide

/-- C2: an empty operation code or a nil payload makes `Publish` return
`(false, error)` at once, leaving the world as it was: no acquisition, no
protocol call, no release. -/
theorem Publish_invalid_no_effect (c : Client) (env : Env) (parameter : PublishData)
    (logId : String) (fuel : Nat) (w : World)
    (h : parameter.OpCode = "" ∨ parameter.Data = GoValue.nil) :
    Publish c env parameter logId fuel w =
      some ((false, some (errorsNew "Rabbit OpCode and LogId cannot be empty")), w) := by
  simp [Publish, h]

theorem Publish_invalid_no_effect_witness :
    Publish sampleClient (notOpenEnv 0) { samplePublish with OpCode := "" } "log-1" 0
        World.init =
      some ((false, some (errorsNew "Rabbit OpCode and LogId cannot be empty")), World.init) :=
  Publish_invalid_no_effect sampleClient (notOpenEnv 0) { samplePublish with OpCode := "" }
    "log-1" 0 World.init (Or.inl rfl)

/-- C3: on valid input whose payload encodes, (a) a first attempt that acquires a
channel and publishes returns `(true, nil)` after one acquisition, the channel
being released once; (b) a first publish failing with "channel/connection is not
open" followed by a successful second acquisition and publish returns
`(true, nil)` after two acquisitions, the second publish going to the channel
the second acquisition returned. -/
theorem Publish_succeeds_first_or_on_retry (c : Client) (env : Env)
    (parameter : PublishData) (logId : String) (goBytes : List Nat) (ch0 : ChannelBox)
    (hv : parameter.valid) (henc : env.gobEncode parameter.Data = Outcome.ok goBytes)
    (hacq0 : env.getFreeChannel 0 = Outcome.ok ch0) :
    (env.publish 0 = none →
      ∀ fuel, Publish c env parameter logId (fuel + 1) World.init =
        some ((true, none),
          { World.init with
            acquires := 1, publishes := 1,
            trace := [Event.encode parameter.Data (Outcome.ok goBytes),
              Event.getFreeChannel (Outcome.ok ch0),
              publishEvent c env parameter logId goBytes ch0 0 none,
              Event.close ch0 false] })) ∧
    (∀ (e : GoError) (ch1 : ChannelBox),
      env.publish 0 = some e →
      stringsIndex e.msg "channel/connection is not open" ≠ -1 →
      env.getFreeChannel 1 = Outcome.ok ch1 →
      env.publish 1 = none →
      ∀ fuel, Publish c env parameter logId (fuel + 2) World.init =
        some ((true, none),
          { World.init with
            acquires := 2, publishes := 2,
            trace := [Event.encode parameter.Data (Outcome.ok goBytes),
              Event.getFreeChannel (Outcome.ok ch0),
              publishEvent c env parameter logId goBytes ch0 0 (some e),
              Event.setClosed ch0.id,
              Event.close { ch0 with closed := true } false,
              Event.getFreeChannel (Outcome.ok ch1),
              publishEvent c env parameter logId goBytes ch1 1 none,
              Event.close ch1 false] })) := by
  constructor
  · intro hpub fuel
    rw [Publish_eq_loop c env parameter logId goBytes _ _ hv henc, publishLoop_succ,
      publishAttempt_ok c env parameter logId goBytes _ ch0 hacq0 hpub]
    rfl
  · intro e ch1 hpub0 hsig hacq1 hpub1 fuel
    have hopen : isNotOpen e = true := by simp [isNotOpen, hsig]
    rw [Publish_eq_loop c env parameter logId goBytes _ _ hv henc, publishLoop_succ,
      publishAttempt_retry c env parameter logId goBytes _ ch0 e hacq0 hpub0 hopen]
    show publishLoop c env parameter logId _ _ goBytes (fuel + 1) _ = _
    rw [publishLoop_succ,
      publishAttempt_ok c env parameter logId goBytes _ ch1 hacq1 hpub1]
    rfl

theorem Publish_succeeds_first_or_on_retry_witness :
    Publish sampleClient (notOpenEnv 1) samplePublish "log-1" 2 World.init =
      some ((true, none),
        { World.init with
          acquires := 2, publishes := 2,
          trace := [Event.encode samplePublish.Data (Outcome.ok [104, 105]),
            Event.getFreeChannel (Outcome.ok ⟨0, false⟩),
            publishEvent sampleClient (notOpenEnv 1) samplePublish "log-1" [104, 105]
              ⟨0, false⟩ 0 (some notOpenError),
            Event.setClosed 0,
            Event.close ⟨0, true⟩ false,
            Event.getFreeChannel (Outcome.ok ⟨1, false⟩),
            publishEvent sampleClient (notOpenEnv 1) samplePublish "log-1" [104, 105]
              ⟨1, false⟩ 1 none,
            Event.close ⟨1, false⟩ false] }) :=
  (Publish_succeeds_first_or_on_retry sampleClient (notOpenEnv 1) samplePublish "log-1"
    [104, 105] ⟨0, false⟩ (by decide) rfl rfl).2 notOpenError ⟨1, false⟩ rfl (by decide)
    rfl rfl 0

/-- C4: when the protocol publish call number `k` (reached after `k` not-open
failures) fails with an error carrying neither retry signature, `Publish`
returns `(false, err)` with the message
"Rabbit:Failed to publish a message sendNum(1),err:" followed by the cause, and
has made exactly `k + 1` acquisitions and `k + 1` protocol calls: none after the
failing one. -/
theorem Publish_other_error_not_retried (c : Client) (env : Env)
    (parameter : PublishData) (logId : String) (goBytes : List Nat) (k : Nat) (e : GoError)
    (hv : parameter.valid) (henc : env.gobEncode parameter.Data = Outcome.ok goBytes)
    (hacq : ∀ i, i ≤ k → ∃ ch, env.getFreeChannel i = Outcome.ok ch)
    (hprev : ∀ i, i < k → ∃ e1, env.publish i = some e1 ∧ isNotOpen e1 = true)
    (hk : env.publish k = some e)
    (hsig1 : stringsIndex e.msg "channel/connection is not open" = -1)
    (hsig2 : stringsIndex e.msg "CHANNEL_ERROR - expected 'channel.open'" = -1) :
    ∀ fuel, k < fuel →
      ∃ w, Publish c env parameter logId fuel World.init =
          some ((false, some ⟨"Rabbit:Failed to publish a message sendNum(1),err:" ++ e.msg⟩),
            w) ∧
        w.acquires = k + 1 ∧ w.publishes = k + 1 := by
  intro fuel hfuel
  obtain ⟨n, rfl⟩ : ∃ n, fuel = (n + 1) + k := ⟨fuel - k - 1, by omega⟩
  have hopen : isNotOpen e = false := by simp [isNotOpen, hsig1, hsig2]
  rw [Publish_eq_loop c env parameter logId goBytes _ _ hv henc]
  obtain ⟨w1, hw1, ha, hp⟩ := publishLoop_skip c env parameter logId goBytes k (n + 1)
    { World.init with trace := World.init.trace ++
        [Event.encode parameter.Data (Outcome.ok goBytes)] }
    (fun i hi => by simpa [World.init] using hacq i (Nat.le_of_lt hi))
    (fun i hi => by simpa [World.init] using hprev i hi)
  have ha0 : w1.acquires = k := by simpa [World.init] using ha
  have hp0 : w1.publishes = k := by simpa [World.init] using hp
  obtain ⟨ch, hch⟩ := hacq k (Nat.le_refl k)
  rw [hw1, publishLoop_succ,
    publishAttempt_other c env parameter logId goBytes w1 ch e (by rw [ha0]; exact hch)
      (by rw [hp0]; exact hk) hopen]
  exact ⟨_, rfl, by simp [ha0], by simp [hp0]⟩

theorem Publish_other_error_not_retried_witness :
    ∃ w, Publish sampleClient refusedEnv samplePublish "log-1" 2 World.init =
        some ((false, some ⟨"Rabbit:Failed to publish a message sendNum(1),err:" ++
          refusedError.msg⟩), w) ∧
      w.acquires = 1 + 1 ∧ w.publishes = 1 + 1 :=
  Publish_other_error_not_retried sampleClient refusedEnv samplePublish "log-1" [104, 105] 1
    refusedError (by decide) rfl (fun i _ => ⟨⟨i, false⟩, rfl⟩)
    (fun i hi => ⟨notOpenError, by
      have h0 : i = 0 := by omega
      subst h0; rfl, by decide⟩)
    rfl (by decide) (by decide) 2 (by decide)

/-! ## Header decoding -/

/-- The loop of `DecodeHeaders` never touches the fields copied from the delivery. -/
theorem foldl_decodeHeader_frame (hs : Table) :
    ∀ r : RabbitHeaders,
      (hs.foldl decodeHeader r).Exchange = r.Exchange ∧
      (hs.foldl decodeHeader r).RouteKey = r.RouteKey ∧
      (hs.foldl decodeHeader r).Timestamp = r.Timestamp ∧
      (hs.foldl decodeHeader r).MessageId = r.MessageId := by
  induction hs with
  | nil => intro r; exact ⟨rfl, rfl, rfl, rfl⟩
  | cons kv tl ih =>
    intro r
    rw [List.foldl_cons]
    obtain ⟨h1, h2, h3, h4⟩ := ih (decodeHeader r kv)
    rw [h1, h2, h3, h4]
    unfold decodeHeader
    split_ifs <;> exact ⟨rfl, rfl, rfl, rfl⟩

theorem foldl_decodeHeader_LogId_absent (hs : Table) :
    ∀ r : RabbitHeaders, (∀ kv ∈ hs, kv.1 ≠ "logId") →
      (hs.foldl decodeHeader r).LogId = r.LogId := by
  induction hs with
  | nil => intro r _; rfl
  | cons kv tl ih =>
    intro r h
    have hk : kv.1 ≠ "logId" := h kv (List.mem_cons_self kv tl)
    rw [List.foldl_cons, ih _ (fun x hx => h x (List.mem_cons_of_mem kv hx))]
    simp only [decodeHeader, if_neg hk]
    split_ifs <;> rfl

theorem foldl_decodeHeader_LogId_present (hs : Table) :
    ∀ (r : RabbitHeaders) (v : GoValue), (hs.map Prod.fst).Nodup → ("logId", v) ∈ hs →
      (hs.foldl decodeHeader r).LogId = (assertString v).1 := by
  induction hs with
  | nil => intro r v _ h; cases h
  | cons kv tl ih =>
    intro r v hnd hmem
    rw [List.map_cons, List.nodup_cons] at hnd
    rw [List.foldl_cons]
    rcases List.mem_cons.mp hmem with hhead | htail
    · subst hhead
      rw [foldl_decodeHeader_LogId_absent tl _ (fun x hx hxk =>
        hnd.1 (List.mem_map.mpr ⟨x, hx, hxk⟩))]
      simp [decodeHeader]
    · exact ih _ v hnd.2 htail

theorem foldl_decodeHeader_Service_absent (hs : Table) :
    ∀ r : RabbitHeaders, (∀ kv ∈ hs, kv.1 ≠ "service") →
      (hs.foldl decodeHeader r).Service = r.Service := by
  induction hs with
  | nil => intro r _; rfl
  | cons kv tl ih =>
    intro r h
    have hk : kv.1 ≠ "service" := h kv (List.mem_cons_self kv tl)
    rw [List.foldl_cons, ih _ (fun x hx => h x (List.mem_cons_of_mem kv hx))]
    simp only [decodeHeader, if_neg hk]
    split_ifs <;> rfl

theorem foldl_decodeHeader_Service_present (hs : Table) :
    ∀ (r : RabbitHeaders) (v : GoValue), (hs.map Prod.fst).Nodup → ("service", v) ∈ hs →
      (hs.foldl decodeHeader r).Service = (assertString v).1 := by
  induction hs with
  | nil => intro r v _ h; cases h
  | cons kv tl ih =>
    intro r v hnd hmem
    rw [List.map_cons, List.nodup_cons] at hnd
    rw [List.foldl_cons]
    rcases List.mem_cons.mp hmem with hhead | htail
    · subst hhead
      rw [foldl_decodeHeader_Service_absent tl _ (fun x hx hxk =>
        hnd.1 (List.mem_map.mpr ⟨x, hx, hxk⟩))]
      simp [decodeHeader]
    · exact ih _ v hnd.2 htail

theorem foldl_decodeHeader_OpUid_absent (hs : Table) :
    ∀ r : RabbitHeaders, (∀ kv ∈ hs, kv.1 ≠ "opUid") →
      (hs.foldl decodeHeader r).OpUid = r.OpUid := by
  induction hs with
  | nil => intro r _; rfl
  | cons kv tl ih =>
    intro r h
    have hk : kv.1 ≠ "opUid" := h kv (List.mem_cons_self kv tl)
    rw [List.foldl_cons, ih _ (fun x hx => h x (List.mem_cons_of_mem kv hx))]
    simp only [decodeHeader, if_neg hk]
    split_ifs <;> rfl

theorem foldl_decodeHeader_OpUid_present (hs : Table) :
    ∀ (r : RabbitHeaders) (v : GoValue), (hs.map Prod.fst).Nodup → ("opUid", v) ∈ hs →
      (hs.foldl decodeHeader r).OpUid = (assertString v).1 := by
  induction hs with
  | nil => intro r v _ h; cases h
  | cons kv tl ih =>
    intro r v hnd hmem
    rw [List.map_cons, List.nodup_cons] at hnd
    rw [List.foldl_cons]
    rcases List.mem_cons.mp hmem with hhead | htail
    · subst hhead
      rw [foldl_decodeHeader_OpUid_absent tl _ (fun x hx hxk =>
        hnd.1 (List.mem_map.mpr ⟨x, hx, hxk⟩))]
      simp [decodeHeader]
    · exact ih _ v hnd.2 htail

/-- C8: a delivery whose header table holds the three entries `Publish` attaches
(`logId`, `service`, `opUid`, each a string), in whatever order the table is
visited and whatever other keys it holds, decodes to exactly these three values
together with the exchange, routing key, timestamp and message id of the delivery. -/
theorem DecodeHeaders_of_published (d : Delivery) (logId service opUid : String)
    (hkeys : (d.Headers.map Prod.fst).Nodup)
    (hsent : [("logId", GoValue.str logId), ("service", GoValue.str service),
        ("opUid", GoValue.str opUid)] ⊆ d.Headers) :
    DecodeHeaders d =
      { LogId := logId, Exchange := d.Exchange, RouteKey := d.RoutingKey, Service := service,
        OpUid := opUid, Timestamp := d.Timestamp, MessageId := d.MessageId } := by
  have h1 : ("logId", GoValue.str logId) ∈ d.Headers := hsent (by simp)
  have h2 : ("service", GoValue.str service) ∈ d.Headers := hsent (by simp)
  have h3 : ("opUid", GoValue.str opUid) ∈ d.Headers := hsent (by simp)
  obtain ⟨f1, f2, f3, f4⟩ := foldl_decodeHeader_frame d.Headers
    { LogId := "", Exchange := d.Exchange, RouteKey := d.RoutingKey, Service := "",
      OpUid := "", Timestamp := d.Timestamp, MessageId := d.MessageId }
  unfold DecodeHeaders
  apply RabbitHeaders.ext
  · exact foldl_decodeHeader_LogId_present d.Headers _ _ hkeys h1
  · exact f1
  · exact f2
  · exact foldl_decodeHeader_Service_present d.Headers _ _ hkeys h2
  · exact foldl_decodeHeader_OpUid_present d.Headers _ _ hkeys h3
  · exact f3
  · exact f4

theorem DecodeHeaders_of_published_witness :
    DecodeHeaders
        { Headers := [("opUid", GoValue.str "u7"), ("x-retry", GoValue.int 2),
            ("logId", GoValue.str "log-1"), ("service", GoValue.str "svc")],
          Timestamp := 1000, MessageId := "m1", Exchange := "ex", RoutingKey := "rk",
          Body := [] } =
      { LogId := "log-1", Exchange := "ex", RouteKey := "rk", Service := "svc",
        OpUid := "u7", Timestamp := 1000, MessageId := "m1" } :=
  DecodeHeaders_of_published
    { Headers := [("opUid", GoValue.str "u7"), ("x-retry", GoValue.int 2),
        ("logId", GoValue.str "log-1"), ("service", GoValue.str "svc")],
      Timestamp := 1000, MessageId := "m1", Exchange := "ex", RoutingKey := "rk",
      Body := [] }
    "log-1" "svc" "u7" (by decide) (by decide)

/-! ## Consumer set-up -/

/-- The binding loop only advances the bind counter and appends bind calls. -/
theorem bindQueue_world (c : Client) (env : Env) (ch : ChannelBox) (queueName : String)
    (exchange : Option ExchangeData) (opCodes : List String) :
    ∀ w : World, ∃ (n : Nat) (evs : List Event),
      (bindQueue c env ch queueName exchange opCodes w).2 =
        { w with binds := w.binds + n, trace := w.trace ++ evs } ∧
      ∀ ev ∈ evs, ev.isClose = false := by
  induction opCodes with
  | nil => intro w; exact ⟨0, [], by simp [bindQueue], by simp⟩
  | cons opCode rest ih =>
    intro w
    cases hb : env.queueBind w.binds with
    | some err =>
      exact ⟨1, [Event.queueBind ch.id queueName (c.getRouteKey opCode)
          (c.getExchangeName (parseExchange exchange).1) false (some err)],
        by simp [bindQueue, channelQueueBind, hb], by simp [Event.isClose]⟩
    | none =>
      obtain ⟨n, evs, hw, hevs⟩ := ih
        { w with binds := w.binds + 1,
                 trace := w.trace ++ [Event.queueBind ch.id queueName (c.getRouteKey opCode)
                   (c.getExchangeName (parseExchange exchange).1) false none] }
      refine ⟨1 + n, Event.queueBind ch.id queueName (c.getRouteKey opCode)
          (c.getExchangeName (parseExchange exchange).1) false none :: evs, ?_, ?_⟩
      · simp only [bindQueue, channelQueueBind, hb]
        rw [hw]
        simp [Nat.add_assoc]
      · intro ev hev
        rcases List.mem_cons.mp hev with h | h
        · subst h; rfl
        · exact hevs ev h

/-- When every bind the loop can reach succeeds, the loop reports no error. -/
theorem bindQueue_ok (c : Client) (env : Env) (ch : ChannelBox) (queueName : String)
    (exchange : Option ExchangeData) (opCodes : List String) :
    ∀ w : World, (∀ i, i < opCodes.length → env.queueBind (w.binds + i) = none) →
      (bindQueue c env ch queueName exchange opCodes w).1 = none := by
  induction opCodes with
  | nil => intro w _; rfl
  | cons opCode rest ih =>
    intro w h
    have h0 : env.queueBind w.binds = none := by simpa using h 0 (by simp)
    simp only [bindQueue, channelQueueBind, h0]
    apply ih
    intro i hi
    have := h (i + 1) (by simpa using hi)
    simpa [Nat.add_assoc, Nat.add_comm 1 i] using this

theorem bindQueue_none (c : Client) (env : Env) (ch : ChannelBox) (queueName : String)
    (exchange : Option ExchangeData) (opCodes : List String) (w : World)
    (h : ∀ i, i < opCodes.length → env.queueBind (w.binds + i) = none) :
    bindQueue c env ch queueName exchange opCodes w =
      (none, (bindQueue c env ch queueName exchange opCodes w).2) :=
  Prod.ext (bindQueue_ok c env ch queueName exchange opCodes w h) rfl

theorem bindQueue_acquires (c : Client) (env : Env) (ch : ChannelBox) (queueName : String)
    (exchange : Option ExchangeData) (opCodes : List String) (w : World) :
    (bindQueue c env ch queueName exchange opCodes w).2.acquires = w.acquires := by
  obtain ⟨n, evs, hw, _⟩ := bindQueue_world c env ch queueName exchange opCodes w
  rw [hw]

theorem bindQueue_qosCalls (c : Client) (env : Env) (ch : ChannelBox) (queueName : String)
    (exchange : Option ExchangeData) (opCodes : List String) (w : World) :
    (bindQueue c env ch queueName exchange opCodes w).2.qosCalls = w.qosCalls := by
  obtain ⟨n, evs, hw, _⟩ := bindQueue_world c env ch queueName exchange opCodes w
  rw [hw]

theorem bindQueue_consumes (c : Client) (env : Env) (ch : ChannelBox) (queueName : String)
    (exchange : Option ExchangeData) (opCodes : List String) (w : World) :
    (bindQueue c env ch queueName exchange opCodes w).2.consumes = w.consumes := by
  obtain ⟨n, evs, hw, _⟩ := bindQueue_world c env ch queueName exchange opCodes w
  rw [hw]

theorem bindQueue_mem_trace (c : Client) (env : Env) (ch : ChannelBox) (queueName : String)
    (exchange : Option ExchangeData) (opCodes : List String) (w : World) (ev : Event)
    (h : ev ∈ w.trace) : ev ∈ (bindQueue c env ch queueName exchange opCodes w).2.trace := by
  obtain ⟨n, evs, hw, _⟩ := bindQueue_world c env ch queueName exchange opCodes w
  rw [hw]
  exact List.mem_append_left evs h

theorem bindQueue_noClose (c : Client) (env : Env) (ch : ChannelBox) (queueName : String)
    (exchange : Option ExchangeData) (opCodes : List String) (w : World)
    (h : ∀ ev ∈ w.trace, ev.isClose = false) :
    ∀ ev ∈ (bindQueue c env ch queueName exchange opCodes w).2.trace, ev.isClose = false := by
  obtain ⟨n, evs, hw, hevs⟩ := bindQueue_world c env ch queueName exchange opCodes w
  rw [hw]
  intro ev hev
  rcases List.mem_append.mp hev with h1 | h1
  · exact h ev h1
  · exact hevs ev h1

/-- C7: when the acquisition, the exchange declaration, the queue declaration,
every bind, the prefetch limit and the protocol `Consume` all succeed, `Consume`
returns the delivery stream with a nil error after one acquisition, and no call
it made is a release: the channel stays leased. -/
theorem Consume_success_keeps_channel (c : Client) (env : Env) (parameter : ConsumeData)
    (ch : ChannelBox) (messages : DeliveryChan)
    (hacq : env.getFreeChannel 0 = Outcome.ok ch)
    (hex : env.exchangeDeclare 0 = none)
    (hqueue : env.queueDeclare 0 = none)
    (hbind : ∀ i, i < parameter.OpCodes.length → env.queueBind i = none)
    (hqos : env.qos 0 = none)
    (hcons : env.consume 0 = Outcome.ok messages) :
    (Consume c env parameter World.init).1 = (some messages, none) ∧
    (Consume c env parameter World.init).2.acquires = 1 ∧
    Event.getFreeChannel (Outcome.ok ch) ∈ (Consume c env parameter World.init).2.trace ∧
    ∀ ev ∈ (Consume c env parameter World.init).2.trace, ev.isClose = false := by
  unfold Consume GetConsumeChannelBox
  simp only [getFreeChannel, exchangeDeclare, channelExchangeDeclare, queueDeclare,
    channelQueueDeclare, World.init, hacq, hex, hqueue]
  rw [bindQueue_none]
  · simp only [channelQos, channelConsume, bindQueue_qosCalls, bindQueue_consumes, hqos,
      hcons, bindQueue_acquires]
    refine ⟨trivial, trivial, ?_, ?_⟩
    · refine List.mem_append_left _ (List.mem_append_left _
        (bindQueue_mem_trace _ _ _ _ _ _ _ _ ?_))
      simp
    · intro ev hev
      simp only [List.mem_append, List.mem_singleton] at hev
      rcases hev with (h | h) | h
      · revert h ev
        apply bindQueue_noClose
        intro ev hev
        simp only [List.mem_append, List.mem_singleton, List.not_mem_nil, false_or] at hev
        rcases hev with (h | h) | h <;> subst h <;> rfl
      · subst h; rfl
      · subst h; rfl
  · simpa using hbind

theorem Consume_success_keeps_channel_witness :
    (Consume sampleClient (notOpenEnv 0) sampleConsume World.init).1 = (some ⟨0⟩, none) ∧
    (Consume sampleClient (notOpenEnv 0) sampleConsume World.init).2.acquires = 1 ∧
    Event.getFreeChannel (Outcome.ok ⟨0, false⟩) ∈
      (Consume sampleClient (notOpenEnv 0) sampleConsume World.init).2.trace ∧
    ∀ ev ∈ (Consume sampleClient (notOpenEnv 0) sampleConsume World.init).2.trace,
      ev.isClose = false :=
  Consume_success_keeps_channel sampleClient (notOpenEnv 0) sampleConsume ⟨0, false⟩ ⟨0⟩
    rfl rfl rfl (fun _ _ => rfl) rfl rfl

/-- C9 (the code departs from the claim): a consumer set-up that fails after
the acquisition returns its error without any release. Shown on a refused
exchange declaration in `GetConsumeChannelBox` and on a refused prefetch limit
in `Consume`: channel 0 is acquired and the trace ends with the failed call. -/
theorem consume_setup_failure_keeps_channel_leased :
    GetConsumeChannelBox sampleClient declareRefusedEnv "q" ["user.created"] none World.init =
      ((none, some (failOnError refusedError "Failed to declare an exchange")),
        { World.init with
          acquires := 1, exDeclares := 1,
          trace := [Event.getFreeChannel (Outcome.ok ⟨0, false⟩),
            Event.exchangeDeclare 0 "" "" true false false false [] (some refusedError)] }) ∧
    Consume sampleClient qosRefusedEnv sampleConsume World.init =
      ((none, some (failOnError refusedError "set Qos err")),
        { World.init with
          acquires := 1, exDeclares := 1, qDeclares := 1, binds := 2, qosCalls := 1,
          trace := [Event.getFreeChannel (Outcome.ok ⟨0, false⟩),
            Event.exchangeDeclare 0 "" "" true false false false [] none,
            Event.queueDeclare 0 "q" true false false false none,
            Event.queueBind 0 "q" "user.created" "" false none,
            Event.queueBind 0 "q" "user.deleted" "" false none,
            Event.qos 0 10 0 false (some refusedError)] }) := by
  decide

/-! ## Invariants of the retry loop -/

/-- A run of the loop that returns ends with an attempt that did not ask for a
retry, started in a world that still satisfies whatever every attempt preserves. -/
theorem publishLoop_returns (c : Client) (env : Env) (parameter : PublishData)
    (logId exchangeName contentType : String) (goBytes : List Nat) (P : World → Prop)
    (hstep : ∀ w, P w →
      P (publishAttempt c env parameter logId exchangeName contentType goBytes w).2) :
    ∀ (fuel : Nat) (w : World) (ret : Bool) (err : Option GoError) (w1 : World), P w →
      publishLoop c env parameter logId exchangeName contentType goBytes fuel w =
        some ((ret, err), w1) →
      ∃ w0, P w0 ∧
        publishAttempt c env parameter logId exchangeName contentType goBytes w0 =
          ((false, ret, err), w1) := by
  intro fuel
  induction fuel with
  | zero => intro w ret err w1 _ h; cases h
  | succ fuel ih =>
    intro w ret err w1 hP h
    rw [publishLoop_succ] at h
    have hnext := hstep w hP
    rcases hrun : publishAttempt c env parameter logId exchangeName contentType goBytes w
      with ⟨⟨retry, ret0, err0⟩, w2⟩
    rw [hrun] at h hnext
    cases retry with
    | true => exact ih w2 ret err w1 hnext h
    | false =>
      simp only [Option.some.injEq, Prod.mk.injEq] at h
      obtain ⟨⟨h1, h2⟩, h3⟩ := h
      subst h1 h2 h3
      exact ⟨w, hP, hrun⟩

theorem leaseRun_append (t evs : List Event) :
    leaseRun (t ++ evs) =
      evs.foldl (fun st ev => st.bind (fun held => leaseStep held ev)) (leaseRun t) := by
  simp only [leaseRun, List.foldl_append]

theorem flagRun_append (t evs : List Event) :
    flagRun (t ++ evs) =
      evs.foldl (fun st ev => st.bind (fun held => flagStep held ev)) (flagRun t) := by
  simp only [flagRun, List.foldl_append]

/-- Every attempt leaves the lease bookkeeping where it found it: nothing held. -/
theorem publishAttempt_lease (c : Client) (env : Env) (parameter : PublishData)
    (logId : String) (goBytes : List Nat) (w : World)
    (h : leaseRun w.trace = some none) :
    leaseRun (publishAttempt c env parameter logId (parseExchange parameter.ExChange).1
      (contentTypeOf parameter) goBytes w).2.trace = some none := by
  cases hacq : env.getFreeChannel w.acquires with
  | fail e =>
    rw [publishAttempt_acquire_fail c env parameter logId _ _ goBytes w e hacq]
    dsimp only
    rw [leaseRun_append, h]
    simp [leaseStep]
  | ok ch =>
    cases hpub : env.publish w.publishes with
    | none =>
      rw [publishAttempt_ok c env parameter logId goBytes w ch hacq hpub]
      dsimp only
      rw [leaseRun_append, h]
      simp [leaseStep, publishEvent]
    | some e =>
      cases hopen : isNotOpen e with
      | true =>
        rw [publishAttempt_retry c env parameter logId goBytes w ch e hacq hpub hopen]
        dsimp only
        rw [leaseRun_append, h]
        simp [leaseStep, publishEvent]
      | false =>
        rw [publishAttempt_other c env parameter logId goBytes w ch e hacq hpub hopen]
        dsimp only
        rw [leaseRun_append, h]
        simp [leaseStep, publishEvent]

/-- Every attempt obeys the flag bookkeeping and ends with nothing held. -/
theorem publishAttempt_flag (c : Client) (env : Env) (parameter : PublishData)
    (logId : String) (goBytes : List Nat) (w : World)
    (h : flagRun w.trace = some none) :
    flagRun (publishAttempt c env parameter logId (parseExchange parameter.ExChange).1
      (contentTypeOf parameter) goBytes w).2.trace = some none := by
  cases hacq : env.getFreeChannel w.acquires with
  | fail e =>
    rw [publishAttempt_acquire_fail c env parameter logId _ _ goBytes w e hacq]
    dsimp only
    rw [flagRun_append, h]
    simp [flagStep]
  | ok ch =>
    cases hpub : env.publish w.publishes with
    | none =>
      rw [publishAttempt_ok c env parameter logId goBytes w ch hacq hpub]
      dsimp only
      rw [flagRun_append, h]
      simp [flagStep, publishEvent, Lease.notOpen]
    | some e =>
      cases hopen : isNotOpen e with
      | true =>
        rw [publishAttempt_retry c env parameter logId goBytes w ch e hacq hpub hopen]
        dsimp only
        rw [flagRun_append, h]
        simp [flagStep, publishEvent, Lease.notOpen, hopen]
      | false =>
        rw [publishAttempt_other c env parameter logId goBytes w ch e hacq hpub hopen]
        dsimp only
        rw [flagRun_append, h]
        simp [flagStep, publishEvent, Lease.notOpen, hopen]

/-- Whatever every attempt preserves, and the recording of the encoding
establishes, holds of the world `Publish` returns on valid, encodable input. -/
theorem Publish_invariant (c : Client) (env : Env) (parameter : PublishData)
    (logId : String) (fuel : Nat) (w : World) (r : Bool × Option GoError) (w1 : World)
    (Q : List Event → Prop)
    (hstart : Q w.trace)
    (henc : ∀ res, Q (w.trace ++ [Event.encode parameter.Data res]))
    (hstep : ∀ goBytes w2, Q w2.trace →
      Q (publishAttempt c env parameter logId (parseExchange parameter.ExChange).1
        (contentTypeOf parameter) goBytes w2).2.trace)
    (hrun : Publish c env parameter logId fuel w = some (r, w1)) :
    Q w1.trace := by
  by_cases hv : parameter.valid
  · cases hdata : env.gobEncode parameter.Data with
    | fail e =>
      have hw : w1.trace = w.trace ++ [Event.encode parameter.Data (Outcome.fail e)] := by
        simp [Publish, gobEncode, hdata, hv.1, hv.2] at hrun
        rw [← hrun.2]
      rw [hw]
      exact henc _
    | ok goBytes =>
      rw [Publish_eq_loop c env parameter logId goBytes fuel w hv hdata] at hrun
      obtain ⟨ret, err⟩ := r
      obtain ⟨w0, hQ, hlast⟩ := publishLoop_returns c env parameter logId _ _ goBytes
        (fun x => Q x.trace) (hstep goBytes) fuel _ ret err w1 (henc _) hrun
      have := hstep goBytes w0 hQ
      rw [hlast] at this
      exact this
  · have hbad : parameter.OpCode = "" ∨ parameter.Data = GoValue.nil := by
      unfold PublishData.valid at hv
      by_cases h1 : parameter.OpCode = ""
      · exact Or.inl h1
      · by_cases h2 : parameter.Data = GoValue.nil
        · exact Or.inr h2
        · exact absurd ⟨h1, h2⟩ hv
    simp only [Publish, hbad, if_true, Option.some.injEq, Prod.mk.injEq] at hrun
    rw [← hrun.2]
    exact hstart

/-- What `exchangeDeclare` does: one protocol call on the channel, whose error,
if any, comes back wrapped. -/
theorem exchangeDeclare_run (c : Client) (env : Env) (ch : ChannelBox)
    (exchange : Option ExchangeData) (w : World) :
    ∃ (name kind : String) (durable autoDelete internal noWait : Bool) (args : Table),
      exchangeDeclare c env ch exchange w =
        ((env.exchangeDeclare w.exDeclares).map
            (fun err => failOnError err "Failed to declare an exchange"),
          { w with exDeclares := w.exDeclares + 1,
                   trace := w.trace ++ [Event.exchangeDeclare ch.id name kind durable
                     autoDelete internal noWait args (env.exchangeDeclare w.exDeclares)] }) := by
  cases exchange with
  | none =>
    refine ⟨c.getExchangeName "", c.ExchangeType "", true, false, false, false, [], ?_⟩
    cases hex : env.exchangeDeclare w.exDeclares <;>
      simp only [exchangeDeclare, channelExchangeDeclare, parseExchange, hex, Option.map]
  | some ex =>
    refine ⟨c.getExchangeName ex.Name, c.ExchangeType ex.Typ, ex.Durable, ex.AutoDelete,
      ex.Internal, ex.NoWait, ex.Args, ?_⟩
    cases hex : env.exchangeDeclare w.exDeclares <;>
      simp only [exchangeDeclare, channelExchangeDeclare, parseExchange, hex, Option.map]

/-- What `SetExchangeDeclare` does after a successful acquisition: the
declaration on the acquired channel, then its release. -/
theorem SetExchangeDeclare_run (c : Client) (env : Env) (exchange : Option ExchangeData)
    (w : World) (ch : ChannelBox) (hacq : env.getFreeChannel w.acquires = Outcome.ok ch) :
    ∃ (name kind : String) (durable autoDelete internal noWait : Bool) (args : Table),
      SetExchangeDeclare c env exchange w =
        ((env.exchangeDeclare w.exDeclares).map
            (fun err => failOnError err "Failed to declare an exchange"),
          { w with acquires := w.acquires + 1, exDeclares := w.exDeclares + 1,
                   trace := w.trace ++ [Event.getFreeChannel (Outcome.ok ch),
                     Event.exchangeDeclare ch.id name kind durable autoDelete internal noWait
                       args (env.exchangeDeclare w.exDeclares),
                     Event.close ch false] }) := by
  obtain ⟨name, kind, durable, autoDelete, internal, noWait, args, h⟩ :=
    exchangeDeclare_run c env ch exchange
      { w with acquires := w.acquires + 1,
               trace := w.trace ++ [Event.getFreeChannel (Outcome.ok ch)] }
  refine ⟨name, kind, durable, autoDelete, internal, noWait, args, ?_⟩
  simp only [SetExchangeDeclare, getFreeChannel, hacq, h, ChannelBox.Close,
    List.append_assoc, List.singleton_append, List.cons_append, List.nil_append]

theorem SetExchangeDeclare_acquire_fail (c : Client) (env : Env)
    (exchange : Option ExchangeData) (w : World) (e : GoError)
    (hacq : env.getFreeChannel w.acquires = Outcome.fail e) :
    SetExchangeDeclare c env exchange w =
      (some e, { w with acquires := w.acquires + 1,
                        trace := w.trace ++ [Event.getFreeChannel (Outcome.fail e)] }) := by
  simp only [SetExchangeDeclare, getFreeChannel, hacq]

/-! ## Release and flag discipline -/

/-- C6: in every returning run of `Publish`, and in every run of
`SetExchangeDeclare`, the trace obeys the lease bookkeeping and ends with no
channel held: each successful acquisition is followed by the protocol call on
that channel and then by exactly one `Close(false)` on it, before any further
acquisition and before the return; a failed acquisition is followed by no release. -/
theorem release_once_per_acquisition (c : Client) (env : Env) :
    (∀ (parameter : PublishData) (logId : String) (fuel : Nat)
        (r : Bool × Option GoError) (w : World),
      Publish c env parameter logId fuel World.init = some (r, w) →
        leaseRun w.trace = some none) ∧
    (∀ exchange : Option ExchangeData,
      leaseRun (SetExchangeDeclare c env exchange World.init).2.trace = some none) := by
  constructor
  · intro parameter logId fuel r w hrun
    refine Publish_invariant c env parameter logId fuel World.init r w
      (fun t => leaseRun t = some none) rfl ?_ ?_ hrun
    · intro res
      rw [leaseRun_append]
      rfl
    · intro goBytes w2 h
      exact publishAttempt_lease c env parameter logId goBytes w2 h
  · intro exchange
    cases hacq : env.getFreeChannel World.init.acquires with
    | fail e =>
      rw [SetExchangeDeclare_acquire_fail c env exchange World.init e hacq]
      rfl
    | ok ch =>
      obtain ⟨name, kind, durable, autoDelete, internal, noWait, args, h⟩ :=
        SetExchangeDeclare_run c env exchange World.init ch hacq
      rw [h]
      dsimp only
      rw [leaseRun_append]
      simp [leaseStep, leaseRun, World.init]

theorem release_once_per_acquisition_witness :
    Publish sampleClient (notOpenEnv 1) samplePublish "log-1" 2 World.init =
        some ((true, none), retriedWorld) ∧
      leaseRun retriedWorld.trace = some none :=
  ⟨by decide,
    (release_once_per_acquisition sampleClient (notOpenEnv 1)).1 samplePublish "log-1" 2
      (true, none) retriedWorld (by decide)⟩

/-- C10: in every returning run of `Publish` the trace obeys the flag
bookkeeping: `closed` is assigned on a channel exactly when the protocol publish
on it failed with one of the two not-open signatures, the assignment comes
between that publish and the release, and the channel is released with `closed`
true in that case and with the flag it was acquired with otherwise. -/
theorem Publish_closed_flag_discipline (c : Client) (env : Env) (parameter : PublishData)
    (logId : String) (fuel : Nat) (r : Bool × Option GoError) (w : World)
    (hrun : Publish c env parameter logId fuel World.init = some (r, w)) :
    flagRun w.trace = some none := by
  refine Publish_invariant c env parameter logId fuel World.init r w
    (fun t => flagRun t = some none) rfl ?_ ?_ hrun
  · intro res
    rw [flagRun_append]
    rfl
  · intro goBytes w2 h
    exact publishAttempt_flag c env parameter logId goBytes w2 h

theorem Publish_closed_flag_discipline_witness :
    Publish sampleClient (notOpenEnv 1) samplePublish "log-1" 3 World.init =
        some ((true, none), retriedWorld) ∧
      flagRun retriedWorld.trace = some none :=
  ⟨by decide,
    Publish_closed_flag_discipline sampleClient (notOpenEnv 1) samplePublish "log-1" 3
      (true, none) retriedWorld (by decide)⟩

/-! ## Reported errors -/

theorem lastFailure_append (t evs : List Event) :
    lastFailure (t ++ evs) =
      evs.foldl (fun acc ev => match ev.failure with | some f => some f | none => acc)
        (lastFailure t) := by
  simp only [lastFailure, List.foldl_append]

/-- A failed call recorded last is the last failure of the trace. -/
theorem lastFailure_snoc (t : List Event) (ev : Event) (f : Option String × GoError)
    (h : ev.failure = some f) : lastFailure (t ++ [ev]) = some f := by
  rw [lastFailure_append]
  simp only [List.foldl_cons, List.foldl_nil, h]

/-- An error out of the binding loop is the wrapped cause of the bind recorded last. -/
theorem bindQueue_failure (c : Client) (env : Env) (ch : ChannelBox) (queueName : String)
    (exchange : Option ExchangeData) (opCodes : List String) :
    ∀ (w : World) (err : GoError),
      (bindQueue c env ch queueName exchange opCodes w).1 = some err →
      ∃ cause,
        lastFailure (bindQueue c env ch queueName exchange opCodes w).2.trace =
          some (some "Failed to bind a queue", cause) ∧
        err = reported (some "Failed to bind a queue", cause) := by
  induction opCodes with
  | nil => intro w err h; simp [bindQueue] at h
  | cons opCode rest ih =>
    intro w err h
    cases hb : env.queueBind w.binds with
    | some cause =>
      simp only [bindQueue, channelQueueBind, hb, Option.some.injEq] at h ⊢
      exact ⟨cause, lastFailure_snoc _ _ _ rfl, h.symm⟩
    | none =>
      simp only [bindQueue, channelQueueBind, hb] at h ⊢
      exact ih _ err h

/-- An error out of `exchangeDeclare` is the wrapped cause of the declaration recorded last. -/
theorem exchangeDeclare_failure (c : Client) (env : Env) (ch : ChannelBox)
    (exchange : Option ExchangeData) (w w1 : World) (err : GoError)
    (h : exchangeDeclare c env ch exchange w = (some err, w1)) :
    ∃ cause, lastFailure w1.trace = some (some "Failed to declare an exchange", cause) ∧
      err = reported (some "Failed to declare an exchange", cause) := by
  obtain ⟨name, kind, durable, autoDelete, internal, noWait, args, hrun⟩ :=
    exchangeDeclare_run c env ch exchange w
  rw [hrun] at h
  cases hex : env.exchangeDeclare w.exDeclares with
  | none => rw [hex] at h; simp at h
  | some cause =>
    rw [hex] at h
    simp only [Option.map, Prod.mk.injEq, Option.some.injEq] at h
    obtain ⟨h1, h2⟩ := h
    subst h1 h2
    exact ⟨cause, lastFailure_snoc _ _ _ rfl, rfl⟩

/-- An error out of `queueDeclare` is the wrapped cause of the declaration recorded last. -/
theorem queueDeclare_failure (env : Env) (ch : ChannelBox) (queueName : String)
    (w w1 : World) (err : GoError)
    (h : queueDeclare env ch queueName w = (some err, w1)) :
    ∃ cause, lastFailure w1.trace = some (some "Failed to declare a queue", cause) ∧
      err = reported (some "Failed to declare a queue", cause) := by
  cases hq : env.queueDeclare w.qDeclares with
  | none => simp [queueDeclare, channelQueueDeclare, hq] at h
  | some cause =>
    simp only [queueDeclare, channelQueueDeclare, hq, Prod.mk.injEq, Option.some.injEq] at h
    obtain ⟨h1, h2⟩ := h
    subst h1 h2
    exact ⟨cause, lastFailure_snoc _ _ _ rfl, rfl⟩

/-- An error out of `GetConsumeChannelBox` reports the failed call recorded last. -/
theorem GetConsumeChannelBox_failure (c : Client) (env : Env) (queueName : String)
    (opCodes : List String) (exchange : Option ExchangeData) (w w1 : World)
    (box : Option ChannelBox) (err : GoError)
    (h : GetConsumeChannelBox c env queueName opCodes exchange w = ((box, some err), w1)) :
    ∃ f, lastFailure w1.trace = some f ∧ err = reported f := by
  unfold GetConsumeChannelBox at h
  split at h
  · rename_i e w2 hacq
    simp only [Prod.mk.injEq, Option.some.injEq] at h
    obtain ⟨⟨_, h1⟩, h2⟩ := h
    subst h1 h2
    simp only [getFreeChannel, Prod.mk.injEq] at hacq
    obtain ⟨h3, h4⟩ := hacq
    subst h4
    exact ⟨(none, e), lastFailure_snoc _ _ _ (by rw [h3]; rfl), rfl⟩
  · split at h
    · rename_i e w3 hex
      simp only [Prod.mk.injEq, Option.some.injEq] at h
      obtain ⟨⟨_, h1⟩, h2⟩ := h
      subst h1 h2
      obtain ⟨cause, hc1, hc2⟩ := exchangeDeclare_failure c env _ exchange _ _ _ hex
      exact ⟨_, hc1, hc2⟩
    · split at h
      · rename_i e w4 hq
        simp only [Prod.mk.injEq, Option.some.injEq] at h
        obtain ⟨⟨_, h1⟩, h2⟩ := h
        subst h1 h2
        obtain ⟨cause, hc1, hc2⟩ := queueDeclare_failure env _ queueName _ _ _ hq
        exact ⟨_, hc1, hc2⟩
      · split at h
        · rename_i e w5 hb
          simp only [Prod.mk.injEq, Option.some.injEq] at h
          obtain ⟨⟨_, h1⟩, h2⟩ := h
          subst h1 h2
          obtain ⟨cause, hc1, hc2⟩ := bindQueue_failure c env _ queueName exchange opCodes
            _ e (congrArg Prod.fst hb)
          rw [hb] at hc1
          exact ⟨_, hc1, hc2⟩
        · simp at h

/-- An error out of `Consume` reports the failed call recorded last. -/
theorem Consume_failure (c : Client) (env : Env) (parameter : ConsumeData) (w w1 : World)
    (stream : Option DeliveryChan) (err : GoError)
    (h : Consume c env parameter w = ((stream, some err), w1)) :
    ∃ f, lastFailure w1.trace = some f ∧ err = reported f := by
  unfold Consume at h
  split at h
  · rename_i box e w2 hsetup
    simp only [Prod.mk.injEq, Option.some.injEq] at h
    obtain ⟨⟨_, h1⟩, h2⟩ := h
    subst h1 h2
    exact GetConsumeChannelBox_failure c env _ _ _ w _ box _ hsetup
  · simp at h
  · rename_i ch w2 hsetup
    cases hqos : env.qos w2.qosCalls with
    | some cause =>
      simp only [channelQos, hqos, Prod.mk.injEq, Option.some.injEq] at h
      obtain ⟨⟨_, h1⟩, h2⟩ := h
      subst h1 h2
      exact ⟨(some "set Qos err", cause), lastFailure_snoc _ _ _ rfl, rfl⟩
    | none =>
      cases hcons : env.consume w2.consumes with
      | ok messages => simp [channelQos, channelConsume, hqos, hcons] at h
      | fail cause =>
        simp only [channelQos, channelConsume, hqos, hcons, Prod.mk.injEq,
          Option.some.injEq] at h
        obtain ⟨⟨_, h1⟩, h2⟩ := h
        subst h1 h2
        exact ⟨(some "get msg err", cause), lastFailure_snoc _ _ _ rfl, rfl⟩

/-- An error out of `SetExchangeDeclare` reports the failed call recorded last. -/
theorem SetExchangeDeclare_failure (c : Client) (env : Env) (exchange : Option ExchangeData)
    (w : World) (err : GoError)
    (h : (SetExchangeDeclare c env exchange w).1 = some err) :
    ∃ f, lastFailure (SetExchangeDeclare c env exchange w).2.trace = some f ∧
      err = reported f := by
  cases hacq : env.getFreeChannel w.acquires with
  | fail e =>
    rw [SetExchangeDeclare_acquire_fail c env exchange w e hacq] at h ⊢
    simp only [Option.some.injEq] at h
    subst h
    exact ⟨(none, e), lastFailure_snoc _ _ _ rfl, rfl⟩
  | ok ch =>
    obtain ⟨name, kind, durable, autoDelete, internal, noWait, args, hrun⟩ :=
      SetExchangeDeclare_run c env exchange w ch hacq
    rw [hrun] at h ⊢
    cases hex : env.exchangeDeclare w.exDeclares with
    | none => rw [hex] at h; simp at h
    | some cause =>
      rw [hex] at h
      simp only [Option.map, Option.some.injEq] at h
      subst h
      refine ⟨(some "Failed to declare an exchange", cause), ?_, rfl⟩
      dsimp only
      rw [lastFailure_append]
      rfl

/-- An error out of `Publish` on valid input reports the failed call recorded last. -/
theorem Publish_failure (c : Client) (env : Env) (parameter : PublishData) (logId : String)
    (fuel : Nat) (w w1 : World) (ret : Bool) (err : GoError) (hv : parameter.valid)
    (h : Publish c env parameter logId fuel w = some ((ret, some err), w1)) :
    ∃ f, lastFailure w1.trace = some f ∧ err = reported f := by
  cases hdata : env.gobEncode parameter.Data with
  | fail e =>
    simp only [Publish, gobEncode, hdata, hv.1, hv.2, or_self, if_false, Option.some.injEq,
      Prod.mk.injEq] at h
    obtain ⟨⟨_, h1⟩, h2⟩ := h
    subst h1 h2
    exact ⟨(some "Encode err", e), lastFailure_snoc _ _ _ rfl, rfl⟩
  | ok goBytes =>
    rw [Publish_eq_loop c env parameter logId goBytes fuel w hv hdata] at h
    obtain ⟨w0, _, hlast⟩ := publishLoop_returns c env parameter logId _ _ goBytes
      (fun _ => True) (fun _ _ => trivial) fuel _ ret (some err) w1 trivial h
    cases hacq : env.getFreeChannel w0.acquires with
    | fail e =>
      rw [publishAttempt_acquire_fail c env parameter logId _ _ goBytes w0 e hacq] at hlast
      simp only [Prod.mk.injEq, Option.some.injEq] at hlast
      obtain ⟨⟨_, _, h1⟩, h2⟩ := hlast
      subst h1 h2
      exact ⟨(none, e), lastFailure_snoc _ _ _ rfl, rfl⟩
    | ok ch =>
      cases hpub : env.publish w0.publishes with
      | none =>
        rw [publishAttempt_ok c env parameter logId goBytes w0 ch hacq hpub] at hlast
        simp at hlast
      | some e =>
        cases hopen : isNotOpen e with
        | true =>
          rw [publishAttempt_retry c env parameter logId goBytes w0 ch e hacq hpub hopen]
            at hlast
          simp at hlast
        | false =>
          rw [publishAttempt_other c env parameter logId goBytes w0 ch e hacq hpub hopen]
            at hlast
          simp only [Prod.mk.injEq, Option.some.injEq] at hlast
          obtain ⟨⟨_, _, h1⟩, h2⟩ := hlast
          subst h1 h2
          refine ⟨(some "Failed to publish a message sendNum(1)", e), ?_, rfl⟩
          dsimp only
          rw [lastFailure_append]
          rfl

/-- C5 (the claim as stated fails): a failed acquisition is not wrapped. With a
pool whose `getFreeChannel` fails with "connection refused",
`SetExchangeDeclare` and `Publish` hand that very error to the caller, and its
message is not of the form "Rabbit:" + label + ",err:" + cause. -/
theorem acquisition_error_returned_unwrapped :
    exhaustedEnv.getFreeChannel 0 = Outcome.fail ⟨"connection refused"⟩ ∧
    (SetExchangeDeclare sampleClient exhaustedEnv none World.init).1 =
      some ⟨"connection refused"⟩ ∧
    (Publish sampleClient exhaustedEnv samplePublish "log-1" 1 World.init).map
      (fun r => r.1) = some (false, some ⟨"connection refused"⟩) ∧
    ¬ ∃ label : String,
      (⟨"connection refused"⟩ : GoError).msg =
        "Rabbit:" ++ label ++ ",err:" ++ (⟨"connection refused"⟩ : GoError).msg := by
  refine ⟨rfl, by decide, by decide, ?_⟩
  rintro ⟨label, h⟩
  have hlen := congrArg String.length h
  simp only [String.length_append] at hlen
  have h1 : "connection refused".length = 18 := by decide
  have h2 : "Rabbit:".length = 7 := by decide
  have h3 : ",err:".length = 5 := by decide
  rw [h1, h2, h3] at hlen
  omega

/-- C5 (amended): whenever `Publish` (on valid input), `SetExchangeDeclare`,
`GetConsumeChannelBox` or `Consume` returns an error, that error reports the
failed call recorded last in the trace: a failed payload encoding or protocol
call comes back as "Rabbit:" + the label of that call + ",err:" + the message of
its cause, and a failed channel acquisition comes back as the acquisition error
itself, unchanged. -/
theorem errors_report_last_failed_call (c : Client) (env : Env) (w : World) :
    (∀ (parameter : PublishData) (logId : String) (fuel : Nat) (ret : Bool)
        (err : GoError) (w1 : World),
      parameter.valid →
      Publish c env parameter logId fuel w = some ((ret, some err), w1) →
      ∃ f, lastFailure w1.trace = some f ∧ err = reported f) ∧
    (∀ (exchange : Option ExchangeData) (err : GoError),
      (SetExchangeDeclare c env exchange w).1 = some err →
      ∃ f, lastFailure (SetExchangeDeclare c env exchange w).2.trace = some f ∧
        err = reported f) ∧
    (∀ (queueName : String) (opCodes : List String) (exchange : Option ExchangeData)
        (box : Option ChannelBox) (err : GoError) (w1 : World),
      GetConsumeChannelBox c env queueName opCodes exchange w = ((box, some err), w1) →
      ∃ f, lastFailure w1.trace = some f ∧ err = reported f) ∧
    (∀ (parameter : ConsumeData) (stream : Option DeliveryChan) (err : GoError) (w1 : World),
      Consume c env parameter w = ((stream, some err), w1) →
      ∃ f, lastFailure w1.trace = some f ∧ err = reported f) :=
  ⟨fun parameter logId fuel ret err w1 hv h =>
      Publish_failure c env parameter logId fuel w w1 ret err hv h,
    fun exchange err h => SetExchangeDeclare_failure c env exchange w err h,
    fun queueName opCodes exchange box err w1 h =>
      GetConsumeChannelBox_failure c env queueName opCodes exchange w w1 box err h,
    fun parameter stream err w1 h => Consume_failure c env parameter w w1 stream err h⟩

theorem errors_report_last_failed_call_witness :
    (Publish sampleClient refusedEnv samplePublish "log-1" 2 World.init =
        some ((false, some (failOnError refusedError "Failed to publish a message sendNum(1)")),
          refusedWorld) ∧
      ∃ f, lastFailure refusedWorld.trace = some f ∧
        failOnError refusedError "Failed to publish a message sendNum(1)" = reported f) ∧
    ((SetExchangeDeclare sampleClient exhaustedEnv none World.init).1 =
        some ⟨"connection refused"⟩ ∧
      ∃ f, lastFailure (SetExchangeDeclare sampleClient exhaustedEnv none World.init).2.trace =
          some f ∧
        (⟨"connection refused"⟩ : GoError) = reported f) :=
  ⟨⟨by decide,
      (errors_report_last_failed_call sampleClient refusedEnv World.init).1 samplePublish
        "log-1" 2 false _ refusedWorld (by decide) (by decide)⟩,
    ⟨by decide,
      (errors_report_last_failed_call sampleClient exhaustedEnv World.init).2.1 none _
        (by decide)⟩⟩

end Rabbitmq
